import Mathlib

/-!
Verification of the cbc-dbmanager specification against the source of
`cbcdb/main.py` and `cbcdb/configuration_service.py`.

The Python code is shallowly embedded: Python values that flow through the
serializer and the sanitizer are modelled by the inductive type `PyVal`,
dictionaries by association lists or functions, and fallible code by
`Except`.  Where a definition models the documented behaviour of an external
library (psycopg2) or a component the spec describes but the source tree does
not contain (the tunnel manager), its doc comment says so.
-/

/-- Two-digit zero padding, as produced by Python's `strftime` field formats. -/
def pad2 (n : Nat) : String :=
  if n < 10 then "0" ++ toString n else toString n

/-- Four-digit zero padding for the `%Y` year field. -/
def pad4 (n : Nat) : String :=
  if n < 10 then "000" ++ toString n
  else if n < 100 then "00" ++ toString n
  else if n < 1000 then "0" ++ toString n
  else toString n

/-- A `datetime.datetime` / `pandas.Timestamp` value.  `tzOffsetMinutes` is
the UTC offset in minutes of an aware value, `none` for a naive value. -/
structure DateTimeVal where
  year : Nat
  month : Nat
  day : Nat
  hour : Nat
  minute : Nat
  second : Nat
  tzOffsetMinutes : Option Int
deriving DecidableEq, Repr

/-- The Python values that reach `_set_column_value` and
`convert_nan_to_none`: `None`, `float('nan')` (also `pd.NaT`), the two
infinities, booleans, integers, strings, datetimes and dates. -/
inductive PyVal where
  | vNone
  | vNaN
  | vInf
  | vNegInf
  | vBool (b : Bool)
  | vInt (n : Int)
  | vStr (s : String)
  | vDateTime (dt : DateTimeVal)
  | vDate (y m d : Nat)
deriving DecidableEq, Repr

/-- `pd.isnull`: true exactly on `None` and on NaN/NaT. -/
def pdIsNull : PyVal → Bool
  | .vNone => true
  | .vNaN => true
  | _ => false

/-- `v == inf or v == -inf`: Python equality with the float infinities is
true only for the infinities themselves (it is `False` for strings,
booleans, finite numbers, dates and `None`). -/
def isInfVal : PyVal → Bool
  | .vInf => true
  | .vNegInf => true
  | _ => false

/-- The `%z` directive of `strftime`: empty for a naive value, otherwise the
sign followed by the offset as `HHMM`. -/
def tzSuffix : Option Int → String
  | none => ""
  | some off =>
    (if off < 0 then "-" else "+") ++ pad2 (off.natAbs / 60) ++ pad2 (off.natAbs % 60)

/-- `val.strftime('%Y-%m-%dT%H:%M:%S%z')` as called in `_set_column_value`. -/
def strftimeDateTime (dt : DateTimeVal) : String :=
  pad4 dt.year ++ "-" ++ pad2 dt.month ++ "-" ++ pad2 dt.day ++ "T" ++
    pad2 dt.hour ++ ":" ++ pad2 dt.minute ++ ":" ++ pad2 dt.second ++
    tzSuffix dt.tzOffsetMinutes

/-- `val.strftime('%Y-%m-%d')` for a `datetime.date`. -/
def strftimeDate (y m d : Nat) : String :=
  pad4 y ++ "-" ++ pad2 m ++ "-" ++ pad2 d

/-- Python `str(v)` for the values of `PyVal`, as used when a value is
interpolated into an f-string or `str.format`.  `str` of an aware datetime
uses a `+HH:MM` offset; of a naive one, no suffix. -/
def pyStr : PyVal → String
  | .vNone => "None"
  | .vNaN => "nan"
  | .vInf => "inf"
  | .vNegInf => "-inf"
  | .vBool b => cond b "True" "False"
  | .vInt n => toString n
  | .vStr s => s
  | .vDateTime dt =>
    pad4 dt.year ++ "-" ++ pad2 dt.month ++ "-" ++ pad2 dt.day ++ " " ++
      pad2 dt.hour ++ ":" ++ pad2 dt.minute ++ ":" ++ pad2 dt.second ++
      (match dt.tzOffsetMinutes with
       | none => ""
       | some off =>
         (if off < 0 then "-" else "+") ++ pad2 (off.natAbs / 60) ++ ":" ++ pad2 (off.natAbs % 60))
  | .vDate y m d => strftimeDate y m d

/-- `DBManager._set_column_value` (main.py lines 561-603).  The Python code
indexes `quote_flag_dict[col]`; the dict is modelled as a total function from
column names to the stored 0/1 flag, and Python truthiness of the flag is
`≠ 0`. -/
def set_column_value (col : String) (val : PyVal) (sep : String)
    (quote_flag_dict : String → Nat) : String :=
  if pdIsNull val then
    col ++ "=null" ++ sep ++ " "
  else if quote_flag_dict col ≠ 0 then
    let v :=
      match val with
      | .vDateTime dt => strftimeDateTime dt
      | .vDate y m d => strftimeDate y m d
      | v => pyStr v
    col ++ "='" ++ v ++ "'" ++ sep ++ " "
  else
    let v :=
      match val with
      | .vBool b => cond b "1" "0"
      | v => pyStr v
    col ++ "=" ++ v ++ sep ++ " "

/-- The spec's quoting classification of a column (§4.4). -/
inductive QuoteClass where
  | quoted
  | unquoted
deriving DecidableEq, Repr

/-- The class denoted by a stored 0/1 flag (1 = quoted, 0 = unquoted). -/
def classOfFlag (n : Nat) : QuoteClass :=
  if n ≠ 0 then .quoted else .unquoted

/-- The rule table of spec §4.4, written from the spec's words, in the
spec's priority order: null; unquoted boolean as 1/0; unquoted plain form;
quoted datetime as `YYYY-MM-DDTHH:MM:SS` plus numeric UTC-offset suffix in
single quotes; quoted date as `YYYY-MM-DD` in single quotes; quoted other in
single quotes. -/
def serializeSpecRules (col : String) (val : PyVal) (sep : String)
    (cls : QuoteClass) : String :=
  if pdIsNull val then
    col ++ "=null" ++ sep ++ " "
  else
    match cls, val with
    | .unquoted, .vBool b => col ++ "=" ++ cond b "1" "0" ++ sep ++ " "
    | .unquoted, v => col ++ "=" ++ pyStr v ++ sep ++ " "
    | .quoted, .vDateTime dt => col ++ "='" ++ strftimeDateTime dt ++ "'" ++ sep ++ " "
    | .quoted, .vDate y m d => col ++ "='" ++ strftimeDate y m d ++ "'" ++ sep ++ " "
    | .quoted, v => col ++ "='" ++ pyStr v ++ "'" ++ sep ++ " "

/-- C1: the cell serializer `_set_column_value` agrees with the rule table of
spec §4.4 for every column name, value, separator and quoting class, and in
particular on the two concrete examples of spec §8:
`serialize('c_bool', True, ',', Unquoted) = "c_bool=1, "` and
`serialize('c_null', None, ',', Quoted) = "c_null=null, "`. -/
theorem c1_serializer_matches_rule_table :
    (∀ (col : String) (val : PyVal) (sep : String) (d : String → Nat),
      set_column_value col val sep d = serializeSpecRules col val sep (classOfFlag (d col)))
    ∧ set_column_value "c_bool" (.vBool true) "," (fun _ => 0) = "c_bool=1, "
    ∧ set_column_value "c_null" .vNone "," (fun _ => 1) = "c_null=null, " := by
  refine ⟨?_, by decide, by decide⟩
  intro col val sep d
  cases h : d col with
  | zero => cases val <;> simp [set_column_value, serializeSpecRules, classOfFlag, h, pdIsNull]
  | succ n => cases val <;> simp [set_column_value, serializeSpecRules, classOfFlag, h, pdIsNull]

/-- State of a psycopg2 connection as far as the claims observe it. -/
structure Conn where
  closed : Bool := false
  committed : Bool := false
  rolledBack : Bool := false
deriving DecidableEq, Repr

/-- State of a psycopg2 cursor. -/
structure Curs where
  closed : Bool := false
deriving DecidableEq, Repr

/-- `DBManager._database_connection_sub_method` (main.py lines 131-138)
combined with the documented semantics of psycopg2's context managers
(psycopg2 >= 2.5, the version pinned by setup.py): on normal exit of
`with connect(...) as conn:` the transaction is committed, on an exception it
is rolled back and the exception re-raised, and in neither case is the
connection itself closed ("exiting the connection's with block doesn't close
the connection").  The inner `with conn.cursor() as curs:` block closes the
cursor on both paths.  The inner operation `op` receives the fresh cursor and
connection and returns its result (or raised exception) together with their
states. -/
def database_connection_sub_method {α : Type}
    (op : Curs → Conn → Except String α × Curs × Conn) :
    Except String α × Curs × Conn :=
  let conn : Conn := {}
  let curs : Curs := {}
  let r := op curs conn
  match r with
  | (.ok a, cu, co) => (.ok a, { cu with closed := true }, { co with committed := true })
  | (.error e, cu, co) => (.error e, { cu with closed := true }, { co with rolledBack := true })

/-- An inner operation that succeeds immediately without touching any state:
the simplest operation a public entry point can run. -/
def c2_trivial_op : Curs → Conn → Except String Nat × Curs × Conn :=
  fun cu co => (.ok 0, cu, co)

/-- An inner operation that raises immediately. -/
def c2_raising_op : Curs → Conn → Except String Nat × Curs × Conn :=
  fun cu co => (.error "boom", cu, co)

/-- C2 counterexample: the claim says the connection opened inside
`_database_connection_sub_method` is closed before control returns, but after
running the simplest successful operation through the sub-method the
connection is still open (`conn.closed = false`): psycopg2's connection
context manager ends the transaction, it does not close the connection. -/
theorem c2_counterexample_connection_left_open :
    (database_connection_sub_method c2_trivial_op).2.2.closed = false ∧
      (database_connection_sub_method c2_raising_op).2.2.closed = false := by
  constructor <;> rfl

/-- C2 amended: for every inner operation run through
`_database_connection_sub_method`, the cursor is closed before control
returns; the connection's closed flag is exactly whatever the inner operation
left it as (the sub-method itself never closes the connection); when the
inner operation raises, the connection's transaction is rolled back before
the error propagates; and when it succeeds, the transaction is committed. -/
theorem c2_session_transaction_finalized :
    ∀ (α : Type) (op : Curs → Conn → Except String α × Curs × Conn),
      (database_connection_sub_method op).2.1.closed = true
      ∧ (database_connection_sub_method op).2.2.closed = (op {} {}).2.2.closed
      ∧ (∀ e, (database_connection_sub_method op).1 = .error e →
          (database_connection_sub_method op).2.2.rolledBack = true)
      ∧ (∀ a, (database_connection_sub_method op).1 = .ok a →
          (database_connection_sub_method op).2.2.committed = true) := by
  intro α op
  rcases h : op {} {} with ⟨r, cu, co⟩
  cases r <;> simp [database_connection_sub_method, h]

/-- C2 witness: the amended theorem applied to the immediately-raising
operation: the error propagates and the transaction is rolled back. -/
theorem c2_session_transaction_finalized_witness :
    (database_connection_sub_method c2_raising_op).2.2.rolledBack = true :=
  (c2_session_transaction_finalized Nat c2_raising_op).2.2.1 "boom" rfl

/-- One token of a Python `str.format` template: literal text or a
positional placeholder `{n}`. -/
inductive FmtTok where
  | lit (s : String)
  | arg (n : Nat)
deriving DecidableEq, Repr

/-- `sql.format(*row)`: each literal token is emitted as is and each
positional placeholder is replaced by the argument at its index (already
converted with `str`). -/
def pyFormat (tmpl : List FmtTok) (row : List String) : String :=
  String.join (tmpl.map fun t =>
    match t with
    | .lit s => s
    | .arg n => row.getD n "")

/-- Python truthiness of the stored `self._page_size` (an optional int):
`None` and `0` are falsy. -/
def truthyNat : Option Nat → Bool
  | some n => n != 0
  | none => false

/-- Line 282 of main.py:
`self._page_size = self._page_size if self._page_size else page_size`. -/
def page_size_update (stored : Option Nat) (page_size : Nat) : Option Nat :=
  if truthyNat stored then stored else some page_size

/-- The inner per-row pass of `convert_nan_to_none` for a row that is a
list: every NaN/±Infinity element is replaced by `None`. -/
def convertRow (vs : List PyVal) : List PyVal :=
  vs.map fun v => if pdIsNull v || isInfVal v then .vNone else v

/-- One parameter entry of `convert_nan_to_none`'s input: either a scalar
(flat parameter list) or a row list (multi-dimensional parameter list). -/
inductive ParamItem where
  | scalar (v : PyVal)
  | row (vs : List PyVal)
deriving DecidableEq, Repr

/-- `DBManager.convert_nan_to_none` (main.py lines 527-559): rows that are
lists have NaN and the two infinities replaced by `None` elementwise; a
scalar entry is replaced by `None` only when `pd.isnull` holds of it (the
infinity comparisons are performed only inside the list branch). -/
def convert_nan_to_none (params : List ParamItem) : List ParamItem :=
  params.map fun item =>
    match item with
    | .row vs => .row (convertRow vs)
    | .scalar v => .scalar (if pdIsNull v then .vNone else v)

/-- `DBManager.execute_batch` (main.py lines 269-297), cursor-present branch
reached through `_get_connection`: updates the sticky page size, sanitizes
the parameter rows, renders one statement per row with `sql.format(*i)`,
joins all of them with `'; '` and issues a single `curs.execute` call
followed by a commit.  The first component of the result is the list of SQL
texts passed to `curs.execute` (one entry per round trip), the second the new
stored `_page_size`. -/
def execute_batch_run (sql : List FmtTok) (stored : Option Nat)
    (params : List (List PyVal)) (page_size : Nat) : List String × Option Nat :=
  let stored' := page_size_update stored page_size
  let params' := params.map convertRow
  ([String.intercalate "; " (params'.map fun i => pyFormat sql (i.map pyStr))], stored')

/-- `psycopg2.extras._paginate`: splits a sequence into consecutive pages of
at most `page_size` elements; an empty input yields no pages. -/
def paginate (page_size : Nat) : List (List PyVal) → List (List (List PyVal))
  | [] => []
  | x :: xs => (x :: xs.take (page_size - 1)) :: paginate page_size (xs.drop (page_size - 1))
termination_by l => l.length
decreasing_by simp [List.length_drop]; omega

/-- `DBManager.insert_many` (main.py lines 299-323), cursor-present branch:
sanitizes the rows and hands them to `psycopg2.extras.execute_values`, whose
documented behaviour is to page the argument list (default page size 100) and
issue one `curs.execute` per page — zero executes for an empty list — then
commits.  The result is the number of statements issued to the database. -/
def insert_many_run (params : List (List PyVal)) : Nat :=
  (paginate 100 (params.map convertRow)).length

/-- A concrete positional template, `update t set c={0} where id={1}`. -/
def batch_tmpl : List FmtTok :=
  [.lit "update t set c=", .arg 0, .lit " where id=", .arg 1]

/-- Two concrete parameter rows for the template. -/
def batch_rows : List (List PyVal) :=
  [[.vStr "a", .vInt 1], [.vStr "b", .vInt 2]]

/-- C3 counterexample: the claim says a call with more rows than the page
size issues more than one batch, but `execute_batch` with two rows and page
size 1 issues exactly one `curs.execute` call containing both statements:
the stored page size is never used to chunk the rows. -/
theorem c3_counterexample_no_paging :
    (execute_batch_run batch_tmpl none batch_rows 1).1.length = 1 ∧
      (execute_batch_run batch_tmpl none batch_rows 1).1 =
        ["update t set c=a where id=1; update t set c=b where id=2"] := by
  constructor <;> rfl

/-- C3 amended: `execute_batch` builds one textual statement per row by
substituting the row's serialized values into the positional template and
joins all of them with `'; '`, but never pages: every call issues exactly one
multi-statement batch (one `curs.execute`), whatever the page size and row
count, and the statements issued are independent of the page size. -/
theorem c3_single_batch_assembly :
    (∀ (sql : List FmtTok) (stored : Option Nat) (params : List (List PyVal)) (p : Nat),
      (execute_batch_run sql stored params p).1.length = 1)
    ∧ (∀ (sql : List FmtTok) (stored : Option Nat) (params : List (List PyVal)) (p q : Nat),
      (execute_batch_run sql stored params p).1 = (execute_batch_run sql stored params q).1)
    ∧ (execute_batch_run batch_tmpl none batch_rows 1000).1 =
        ["update t set c=a where id=1; update t set c=b where id=2"] := by
  refine ⟨fun sql stored params p => rfl, fun sql stored params p q => rfl, rfl⟩

/-- C7 counterexample: the claim says an explicitly passed `page_size` on a
later call overrides the stored sticky value for that call, but with a stored
page size of 500 a call passing 200 keeps 500: line 282 prefers the stored
truthy value and discards the explicit argument. -/
theorem c7_counterexample_explicit_override_loses :
    (execute_batch_run batch_tmpl (some 500) batch_rows 200).2 = some 500 ∧
      some 500 ≠ (some 200 : Option Nat) := by
  constructor
  · rfl
  · decide

/-- C7 amended: the first call's `page_size` argument becomes the instance's
stored page size, and every later call keeps the stored value even when an
explicit `page_size` is passed (the sticky value wins whenever it is truthy);
moreover the page size never affects the statements issued, since
`execute_batch` sends all rows as one batch. -/
theorem c7_page_size_sticky :
    (∀ p : Nat, page_size_update none p = some p)
    ∧ (∀ (n p : Nat), n ≠ 0 → page_size_update (some n) p = some n)
    ∧ (∀ (sql : List FmtTok) (stored : Option Nat) (params : List (List PyVal)) (p q : Nat),
      (execute_batch_run sql stored params p).1 = (execute_batch_run sql stored params q).1) := by
  refine ⟨fun p => rfl, ?_, fun sql stored params p q => rfl⟩
  intro n p hn
  simp [page_size_update, truthyNat, hn]

/-- C7 witness: the sticky-value part of the amended theorem applied at a
stored page size of 500 and an explicit argument of 200. -/
theorem c7_page_size_sticky_witness :
    page_size_update (some 500) 200 = some 500 :=
  c7_page_size_sticky.2.1 500 200 (by decide)

/-- C8 counterexample: the claim says an empty row list issues zero
statements, but `execute_batch` with `params = []` still issues one
`curs.execute` call whose SQL text is the empty string (the join of zero
per-row statements). -/
theorem c8_counterexample_empty_batch_executes :
    (execute_batch_run batch_tmpl none [] 1000).1 = [""] ∧
      ([""] : List String).length ≠ 0 := by
  constructor
  · rfl
  · decide

/-- C8 amended: `insert_many` with an empty row list is a no-op issuing zero
statements, while `execute_batch` with an empty row list issues exactly one
`curs.execute` call whose SQL text is the empty string. -/
theorem c8_empty_row_list :
    insert_many_run [] = 0
    ∧ (∀ (sql : List FmtTok) (stored : Option Nat) (p : Nat),
      (execute_batch_run sql stored [] p).1 = [""]) := by
  constructor
  · simp [insert_many_run, paginate]
  · intro sql stored p
    rfl

/-- C5 counterexample: the claim says every element equal to positive
infinity becomes `None` also when `params` is a flat list of scalars, but the
flat-scalar branch of `convert_nan_to_none` only tests `pd.isnull`, so a flat
infinity passes through unchanged. -/
theorem c5_counterexample_flat_infinity_kept :
    convert_nan_to_none [.scalar .vInf] = [.scalar .vInf] ∧
      PyVal.vInf ≠ PyVal.vNone := by
  constructor
  · rfl
  · decide

/-- C5 amended: `convert_nan_to_none` preserves the shape of the parameter
list and never raises (it is total); inside a row list, an element becomes
`None` exactly when it is null/NaN or one of the two infinities, and every
other element is unchanged; in a flat list of scalars only null/NaN values
become `None` — a flat infinity passes through unchanged. -/
theorem c5_sanitizer_behaviour :
    (∀ params : List ParamItem, (convert_nan_to_none params).length = params.length)
    ∧ (∀ (vs : List PyVal) (i : Nat),
      (convertRow vs).getD i .vNone =
        if pdIsNull (vs.getD i .vNone) || isInfVal (vs.getD i .vNone) then .vNone
        else vs.getD i .vNone)
    ∧ convert_nan_to_none [.row [.vInf, .vNegInf, .vNaN, .vStr "a", .vInt 3]] =
        [.row [.vNone, .vNone, .vNone, .vStr "a", .vInt 3]]
    ∧ convert_nan_to_none [.scalar .vNaN, .scalar (.vStr "a"), .scalar .vInf] =
        [.scalar .vNone, .scalar (.vStr "a"), .scalar .vInf] := by
  refine ⟨?_, ?_, rfl, rfl⟩
  · intro params
    simp [convert_nan_to_none]
  · intro vs i
    induction vs generalizing i with
    | nil => simp [convertRow, pdIsNull]
    | cons x xs ih =>
      cases i with
      | zero => simp [convertRow]
      | succ j => simpa [convertRow] using ih j

/-- The `quoted_types` list of `_get_table_column_dtypes` (main.py lines
425-427). -/
def quoted_types : List String :=
  ["character varying", "nvarchar", "text", "character", "nchar", "bpchar", "date",
   "timestamp without time zone", "timestamp with time zone", "time without time zone",
   "time with time zone"]

/-- The `unquoted_types` list of `_get_table_column_dtypes` (main.py lines
428-429). -/
def unquoted_types : List String :=
  ["numeric", "bigint", "smallint", "integer", "bool", "float4", "float8", "float", "real",
   "double precision", "boolean"]

/-- The two exceptions raised by the catalog lookup: `MissingDatabaseColumn`
(the spec's name too) and `MissingDTypeFromTypes` (the spec calls it
`UnrecognizedColumnType`), each carrying the data interpolated into the
Python exception message. -/
inductive CatalogErr where
  | missingDatabaseColumn (col : String)
  | missingDTypeFromTypes (col dtype : String)
deriving DecidableEq, Repr

/-- `dtypes.get(col)` on the dict built from the metadata query result,
modelled as an association list of `(column_name, data_type)` pairs. -/
def dtypeOf (dtypes : List (String × String)) (c : String) : Option String :=
  (dtypes.find? fun p => p.1 == c).map Prod.snd

/-- `DBManager._get_table_column_dtypes` (main.py lines 405-444) after the
metadata query: walks the requested columns in order; a column whose dtype is
missing (or empty, Python's `if not dtype`) raises `MissingDatabaseColumn`; a
dtype in neither fixed partition raises `MissingDTypeFromTypes`; otherwise
the column maps to flag 1 (quoted) or 0 (unquoted). -/
def get_table_column_dtypes (dtypes : List (String × String)) :
    List String → Except CatalogErr (List (String × Nat))
  | [] => .ok []
  | c :: rest =>
    match dtypeOf dtypes c with
    | none => .error (.missingDatabaseColumn c)
    | some dt =>
      if dt = "" then .error (.missingDatabaseColumn c)
      else if dt ∈ quoted_types then
        match get_table_column_dtypes dtypes rest with
        | .ok m => .ok ((c, 1) :: m)
        | .error e => .error e
      else if dt ∈ unquoted_types then
        match get_table_column_dtypes dtypes rest with
        | .ok m => .ok ((c, 0) :: m)
        | .error e => .error e
      else .error (.missingDTypeFromTypes c dt)

/-- A requested column the catalog accepts: present, non-empty dtype, and
the dtype lies in one of the two partitions. -/
def okColumn (dtypes : List (String × String)) (c : String) : Prop :=
  ∃ dt, dtypeOf dtypes c = some dt ∧ dt ≠ "" ∧ (dt ∈ quoted_types ∨ dt ∈ unquoted_types)

/-- Every accepted entry of a successful catalog lookup records the dtype's
partition: flag 1 exactly for a quoted dtype, flag 0 exactly for an
unquoted one. -/
theorem gtcd_ok_entry (dtypes : List (String × String)) :
    ∀ (cols : List String) (m : List (String × Nat)),
      get_table_column_dtypes dtypes cols = .ok m →
      ∀ p ∈ m, ∃ dt, dtypeOf dtypes p.1 = some dt ∧ dt ≠ "" ∧
        ((dt ∈ quoted_types ∧ p.2 = 1) ∨ (dt ∉ quoted_types ∧ dt ∈ unquoted_types ∧ p.2 = 0)) := by
  intro cols
  induction cols with
  | nil =>
    intro m h p hp
    simp only [get_table_column_dtypes, Except.ok.injEq] at h
    subst h
    simp at hp
  | cons c rest ih =>
    intro m h p hp
    simp only [get_table_column_dtypes] at h
    cases hd : dtypeOf dtypes c with
    | none =>
      simp only [hd] at h
      exact absurd h (by simp)
    | some dt =>
      simp only [hd] at h
      by_cases h0 : dt = ""
      · simp only [if_pos h0] at h
        exact absurd h (by simp)
      · rw [if_neg h0] at h
        by_cases hq : dt ∈ quoted_types
        · rw [if_pos hq] at h
          cases hrec : get_table_column_dtypes dtypes rest with
          | ok m' =>
            simp only [hrec, Except.ok.injEq] at h
            subst h
            cases hp with
            | head => exact ⟨dt, hd, h0, Or.inl ⟨hq, rfl⟩⟩
            | tail _ hp => exact ih m' hrec p hp
          | error e =>
            simp only [hrec] at h
            exact absurd h (by simp)
        · rw [if_neg hq] at h
          by_cases hu : dt ∈ unquoted_types
          · rw [if_pos hu] at h
            cases hrec : get_table_column_dtypes dtypes rest with
            | ok m' =>
              simp only [hrec, Except.ok.injEq] at h
              subst h
              cases hp with
              | head => exact ⟨dt, hd, h0, Or.inr ⟨hq, hu, rfl⟩⟩
              | tail _ hp => exact ih m' hrec p hp
            | error e =>
              simp only [hrec] at h
              exact absurd h (by simp)
          · rw [if_neg hu] at h
            exact absurd h (by simp)

/-- No declared type is in both partitions. -/
theorem quoted_unquoted_disjoint : ∀ dt ∈ quoted_types, dt ∉ unquoted_types := by
  decide

/-- C6: over any table metadata, every column a successful catalog lookup
returns is classified with flag 1 (Quoted) exactly when its declared type is
in the quoted partition (character/text variants, date, timestamp with and
without time zone, time with and without time zone) and flag 0 (Unquoted)
exactly when it is in the unquoted partition (integer variants,
floating-point variants, boolean, numeric); and over a table whose columns
are `color_name` of type varchar (reported by information_schema as
`character varying`) and `an_int` of type `integer`, the lookup returns
`color_name ↦ 1` and `an_int ↦ 0`. -/
theorem c6_catalog_classification :
    (∀ (dtypes : List (String × String)) (cols : List String) (m : List (String × Nat)),
      get_table_column_dtypes dtypes cols = .ok m →
      ∀ p ∈ m, ∃ dt, dtypeOf dtypes p.1 = some dt ∧
        (p.2 = 1 ↔ dt ∈ quoted_types) ∧ (p.2 = 0 ↔ dt ∈ unquoted_types))
    ∧ get_table_column_dtypes
        [("color_name", "character varying"), ("an_int", "integer")]
        ["color_name", "an_int"] = .ok [("color_name", 1), ("an_int", 0)] := by
  constructor
  · intro dtypes cols m h p hp
    obtain ⟨dt, hd, h0, hcase⟩ := gtcd_ok_entry dtypes cols m h p hp
    refine ⟨dt, hd, ?_, ?_⟩
    · rcases hcase with ⟨hq, h1⟩ | ⟨hq, hu, h2⟩
      · simp [h1, hq]
      · simp [h2, hq]
    · rcases hcase with ⟨hq, h1⟩ | ⟨hq, hu, h2⟩
      · simp only [h1]
        constructor
        · intro h10
          exact absurd h10 (by decide)
        · intro hu
          exact absurd hu (quoted_unquoted_disjoint dt hq)
      · simp [h2, hu]
  · rfl

/-- C6 witness: the classification applied to the single-column metadata
`color_name : character varying` and its singleton lookup result. -/
theorem c6_catalog_classification_witness :
    ∃ dt, dtypeOf [("color_name", "character varying")] "color_name" = some dt ∧
      ((1 : Nat) = 1 ↔ dt ∈ quoted_types) ∧ ((1 : Nat) = 0 ↔ dt ∈ unquoted_types) :=
  c6_catalog_classification.1 [("color_name", "character varying")] ["color_name"]
    [("color_name", 1)] rfl ("color_name", 1) (by simp)

/-- `quote_col_dict[col]` on the dict returned by the catalog lookup (the
columns passed to the serializer are always among the requested ones, so the
default 0 of the model is never reached in the source's use). -/
def lookupFlag (m : List (String × Nat)) (c : String) : Nat :=
  ((m.find? fun p => p.1 == c).map Prod.snd).getD 0

/-- Python `str.rstrip(chars)`: removes every trailing character that is a
member of the given character set. -/
def rstripSet (cs : List Char) (s : String) : String :=
  String.mk ((s.data.reverse.dropWhile fun ch => cs.contains ch).reverse)

/-- `DBManager.update_batch_from_df` (main.py lines 325-372).  The dataframe
is modelled as the list of its rows after the `drop_duplicates` /
null-normalization preamble, each row a mapping from column name to value.
The catalog lookup on `update_cols + static_cols` runs first; if it raises,
the error propagates and nothing is executed.  Otherwise each row yields a
SET fragment (separator `','`, then `rstrip(', ')`) and a WHERE fragment
(separator `' and'`, then `rstrip('and ')`), the per-row update statements
are joined with `' '` and the whole text is sent in a single
`execute_simple` call.  The first component of the result is the list of SQL
texts executed, the second the raised error if any. -/
def update_batch_from_df_run (dtypes : List (String × String))
    (update_cols static_cols : List String) (rows : List (String → PyVal))
    (schema table : String) : List String × Option CatalogErr :=
  match get_table_column_dtypes dtypes (update_cols ++ static_cols) with
  | .error e => ([], some e)
  | .ok m =>
    let quote := lookupFlag m
    let updated_statements := rows.map fun r =>
      rstripSet [',', ' ']
        (String.join (update_cols.map fun c => set_column_value c (r c) "," quote))
    let static_statements := rows.map fun r =>
      rstripSet ['a', 'n', 'd', ' ']
        (String.join (static_cols.map fun c => set_column_value c (r c) " and" quote))
    let stmts := (static_statements.zip updated_statements).map fun p =>
      "update " ++ schema ++ "." ++ table ++ " set  " ++ p.2 ++ " where " ++ p.1 ++ ";"
    ([String.intercalate " " stmts], none)

/-- When every column of a prefix is accepted, an error arising further down
the requested column list propagates unchanged through the catalog lookup. -/
theorem gtcd_append_error (dtypes : List (String × String)) (e : CatalogErr) :
    ∀ (pre tail : List String), (∀ x ∈ pre, okColumn dtypes x) →
      get_table_column_dtypes dtypes tail = .error e →
      get_table_column_dtypes dtypes (pre ++ tail) = .error e := by
  intro pre
  induction pre with
  | nil =>
    intro tail _ htail
    simpa using htail
  | cons x pre ih =>
    intro tail hok htail
    obtain ⟨dt, hd, h0, hcls⟩ := hok x (by simp)
    have hrest : get_table_column_dtypes dtypes (pre ++ tail) = .error e :=
      ih tail (fun y hy => hok y (by simp [hy])) htail
    simp only [List.cons_append, get_table_column_dtypes, hd, if_neg h0]
    by_cases hq : dt ∈ quoted_types
    · rw [if_pos hq]
      simp only [List.append_eq, hrest]
    · rcases hcls with hcls | hu
      · exact absurd hcls hq
      · rw [if_neg hq, if_pos hu]
        simp only [List.append_eq, hrest]

/-- C4: the catalog lookup raises `MissingDatabaseColumn(column)` when it
reaches a requested column absent from the table metadata (Python's
`if not dtype`, so a missing or empty dtype), raises `MissingDTypeFromTypes`
(the spec's `UnrecognizedColumnType`) when it reaches a column whose declared
type is in neither partition, and in `update_batch_from_df` any catalog error
propagates before a single mutation statement is executed, so no partial
mutation occurs. -/
theorem c4_catalog_fails_fast :
    (∀ (dtypes : List (String × String)) (pre : List String) (c : String) (post : List String),
      (∀ x ∈ pre, okColumn dtypes x) →
      (dtypeOf dtypes c = none ∨ dtypeOf dtypes c = some "") →
      get_table_column_dtypes dtypes (pre ++ c :: post) =
        .error (.missingDatabaseColumn c))
    ∧ (∀ (dtypes : List (String × String)) (pre : List String) (c : String)
        (post : List String) (dt : String),
      (∀ x ∈ pre, okColumn dtypes x) →
      dtypeOf dtypes c = some dt → dt ≠ "" → dt ∉ quoted_types → dt ∉ unquoted_types →
      get_table_column_dtypes dtypes (pre ++ c :: post) =
        .error (.missingDTypeFromTypes c dt))
    ∧ (∀ (dtypes : List (String × String)) (update_cols static_cols : List String)
        (rows : List (String → PyVal)) (schema table : String) (e : CatalogErr),
      get_table_column_dtypes dtypes (update_cols ++ static_cols) = .error e →
      update_batch_from_df_run dtypes update_cols static_cols rows schema table =
        ([], some e)) := by
  refine ⟨?_, ?_, ?_⟩
  · intro dtypes pre c post hok hbad
    refine gtcd_append_error dtypes _ pre (c :: post) hok ?_
    rcases hbad with h | h <;> simp [get_table_column_dtypes, h]
  · intro dtypes pre c post dt hok hd hne hq hu
    refine gtcd_append_error dtypes _ pre (c :: post) hok ?_
    simp only [get_table_column_dtypes, hd, if_neg hne, if_neg hq, if_neg hu]
  · intro dtypes update_cols static_cols rows schema table e h
    simp only [update_batch_from_df_run, h]

/-- C4 witness: the three parts applied at concrete inputs — a table with
only column `a : integer`, from which column `b` is requested after `a`; a
table where `b` has the unrecognized type `weird`; and an update run whose
catalog lookup fails, executing nothing. -/
theorem c4_catalog_fails_fast_witness :
    get_table_column_dtypes [("a", "integer")] (["a"] ++ "b" :: []) =
        .error (.missingDatabaseColumn "b")
    ∧ get_table_column_dtypes [("a", "integer"), ("b", "weird")] (["a"] ++ "b" :: []) =
        .error (.missingDTypeFromTypes "b" "weird")
    ∧ update_batch_from_df_run [] ["b"] [] [] "public" "color" =
        ([], some (.missingDatabaseColumn "b")) := by
  refine ⟨?_, ?_, ?_⟩
  · exact c4_catalog_fails_fast.1 [("a", "integer")] ["a"] "b" []
      (by
        intro x hx
        simp only [List.mem_singleton] at hx
        subst hx
        exact ⟨"integer", rfl, by decide, Or.inr (by decide)⟩)
      (Or.inl rfl)
  · exact c4_catalog_fails_fast.2.1 [("a", "integer"), ("b", "weird")] ["a"] "b" [] "weird"
      (by
        intro x hx
        simp only [List.mem_singleton] at hx
        subst hx
        exact ⟨"integer", rfl, by decide, Or.inr (by decide)⟩)
      rfl (by decide) (by decide) (by decide)
  · exact c4_catalog_fails_fast.2.2 [] ["b"] [] [] "public" "color"
      (.missingDatabaseColumn "b") rfl

/-- Modelled from the spec: the source tree under src/ contains no
TunnelManager implementation (only SSH configuration fields in
`configuration_service.py`), so the tunnel state is modelled from spec §2/§4.1:
a TunnelHandle `{is_active}` plus a counter of how many times the underlying
tunnel stop operation has run, to observe double-close faults. -/
structure TunnelState where
  isActive : Bool
  stops : Nat
deriving DecidableEq, Repr

/-- Modelled from the spec (§4.1): `release()` stops the tunnel if active;
no-op (not an error) if already inactive. -/
def TunnelState.release (t : TunnelState) : TunnelState :=
  if t.isActive then { isActive := false, stops := t.stops + 1 } else t

/-- Modelled from the spec (§4.1): starting is idempotent — if a tunnel is
already active, starting again is a no-op; otherwise the tunnel becomes
active. -/
def TunnelState.start (t : TunnelState) : TunnelState :=
  if t.isActive then t else { t with isActive := true }

/-- C9: `release()` is idempotent — releasing twice equals releasing once;
releasing an inactive tunnel (for instance immediately after a previous
release) is a no-op returning the state unchanged, with no error and no
second stop of the underlying tunnel; and calling `release()` twice in a row
after a start stops the tunnel exactly once. -/
theorem c9_release_idempotent :
    (∀ t : TunnelState, t.release.release = t.release)
    ∧ (∀ s : Nat, (TunnelState.mk false s).release = TunnelState.mk false s)
    ∧ (∀ t : TunnelState, t.start.release.release.stops = t.stops + 1) := by
  refine ⟨?_, ?_, ?_⟩
  · intro t
    rcases t with ⟨a, s⟩
    cases a <;> simp [TunnelState.release]
  · intro s
    simp [TunnelState.release]
  · intro t
    rcases t with ⟨a, s⟩
    cases a <;> simp [TunnelState.release, TunnelState.start]

/-- The arguments of `ConfigurationService.__init__` that `use_ssh` can
reach: the stored `_use_ssh` flag, `_ssh_key_path` and `_test_mode`
(configuration_service.py lines 52-72). -/
structure ConfigurationService where
  use_ssh_arg : Bool
  ssh_key_path_arg : Option String
  test_mode : Bool

/-- Python truthiness of an optional string: `None` and the empty string are
falsy. -/
def pyTruthyOptStr : Option String → Bool
  | some s => s != ""
  | none => false

/-- `ConfigurationService._check_if_value_exists` (configuration_service.py
lines 260-306): the constructor-assigned value wins if truthy; then test
mode returns the test response; then the environment variable; then the
legacy environment variable; then `MissingEnviron` if `error_flag` is set,
else `None`.  The process environment is modelled as a function from
variable names to optional values. -/
def check_if_value_exists (cfg : ConfigurationService) (env : String → Option String)
    (key_name : String) (assigned_value : Option String) (error_flag : Bool)
    (test_response : Option String) (legacy_key_name : Option String) :
    Except String (Option String) :=
  if pyTruthyOptStr assigned_value then .ok assigned_value
  else if cfg.test_mode then .ok test_response
  else
    let env_value := env key_name
    let legacy_env_value := match legacy_key_name with
      | some k => env k
      | none => none
    if pyTruthyOptStr env_value then .ok env_value
    else if pyTruthyOptStr legacy_env_value then .ok legacy_env_value
    else if error_flag then .error key_name
    else .ok none

/-- Python `str.lower()`, character by character. -/
def pyLower (s : String) : String :=
  String.mk (s.data.map Char.toLower)

/-- The `use_ssh` property (configuration_service.py lines 88-100): it
resolves `_check_if_value_exists('USE_SSH', self._ssh_key_path,
error_flag=False, test_response='false')` — note the assigned value passed is
the stored SSH key path, not the stored `_use_ssh` flag — and returns `True`
exactly when the resolved value is truthy and lowercases to `'true'`. -/
def use_ssh (cfg : ConfigurationService) (env : String → Option String) : Bool :=
  match check_if_value_exists cfg env "USE_SSH" cfg.ssh_key_path_arg false
      (some "false") none with
  | .ok (some res) => if res ≠ "" then pyLower res == "true" else false
  | _ => false

/-- The empty process environment. -/
def no_env : String → Option String := fun _ => none

/-- C10: `use_ssh` returns `True` exactly when the value resolved through
`_check_if_value_exists('USE_SSH', self._ssh_key_path, ...)` — the
`ssh_key_path` constructor argument if truthy, else the test response
`'false'` in test mode, else the `USE_SSH` environment variable — compares
equal to `'true'` case-insensitively; the stored `use_ssh` constructor
argument is never consulted (changing it never changes the result); and an
instance constructed with `use_ssh := true` but no SSH key path and no
`USE_SSH` environment variable yields `use_ssh = false` in test mode and
out of it. -/
theorem c10_use_ssh_ignores_constructor_flag :
    (∀ (cfg : ConfigurationService) (env : String → Option String),
      use_ssh cfg env = true ↔
        ∃ r, check_if_value_exists cfg env "USE_SSH" cfg.ssh_key_path_arg false
            (some "false") none = .ok (some r) ∧ pyLower r = "true")
    ∧ (∀ (cfg : ConfigurationService) (env : String → Option String) (b : Bool),
      use_ssh { cfg with use_ssh_arg := b } env = use_ssh cfg env)
    ∧ (∀ (b tm : Bool) (env : String → Option String),
      env "USE_SSH" = none →
      use_ssh ⟨b, none, tm⟩ env = false) := by
  refine ⟨?_, ?_, ?_⟩
  · intro cfg env
    unfold use_ssh
    cases hr : check_if_value_exists cfg env "USE_SSH" cfg.ssh_key_path_arg false
        (some "false") none with
    | ok o =>
      cases o with
      | none => simp
      | some res =>
        dsimp only
        by_cases h0 : res = ""
        · subst h0
          rw [if_neg (by simp)]
          constructor
          · intro hfalse
            cases hfalse
          · rintro ⟨r, hr2, hlow⟩
            rw [show r = "" by cases hr2; rfl] at hlow
            exact absurd hlow (by decide)
        · rw [if_pos h0]
          constructor
          · intro hL
            exact ⟨res, rfl, by simpa using hL⟩
          · rintro ⟨r, hr2, hlow⟩
            rw [show res = r by cases hr2; rfl]
            simpa using hlow
    | error e => simp
  · intro cfg env b
    unfold use_ssh
    rfl
  · intro b tm env h
    cases tm <;>
      simp [use_ssh, check_if_value_exists, pyTruthyOptStr, h, pyLower]

/-- C10 witness: an instance constructed with `use_ssh := true`, no SSH key
path, outside test mode, in an empty environment — the property still
returns `false`. -/
theorem c10_use_ssh_ignores_constructor_flag_witness :
    use_ssh ⟨true, none, false⟩ no_env = false :=
  c10_use_ssh_ignores_constructor_flag.2.2 true false no_env rfl
